import Mathlib

/-!
Shallow embedding of the `DataAnalystAgent` class from `src/agent.py`:
document loading dispatch, summarization, visualization planning,
context assembly and the question-answering pipeline.

External collaborators (pandas parsing, docx/pdf/image file reading, the
Together completion service) are passed in as explicit oracle values: the
embedded functions receive the outcome the external call would have
produced and model exactly what the repository code does with it.
-/

namespace Agent

/-- Inferred column dtype of a pandas DataFrame column, as used by
`select_dtypes(include=np.number)`: `int64` and `float64` are numeric,
`object` is not. -/
inductive DType where
  | intT
  | floatT
  | objectT
deriving DecidableEq, Repr

/-- The dtype's string tag, as produced by `str(dtype)` in
`get_data_summary`. -/
def DType.tag : DType → String
  | .intT => "int64"
  | .floatT => "float64"
  | .objectT => "object"

/-- Whether the dtype is selected by `select_dtypes(include=np.number)`. -/
def DType.isNumeric : DType → Bool
  | .intT => true
  | .floatT => true
  | .objectT => false

/-- One cell of a DataFrame: either a missing value (NaN/None, counted by
`isnull`) or a present value, rendered as a string. -/
inductive Cell where
  | na
  | val (s : String)
deriving DecidableEq, Repr

/-- A pandas DataFrame as `load_document` produces it from a CSV/Excel
file: named, dtype-tagged columns in source order, and rows as ordered
lists of cells (one cell per column). -/
structure Table where
  cols : List (String × DType)
  rows : List (List Cell)
deriving DecidableEq, Repr

/-- One chat message `{'role': ..., 'content': ...}`. -/
structure ChatTurn where
  role : String
  content : String
deriving DecidableEq, Repr

/-- One record appended to `self.analysis_history`. -/
structure AnalysisRecord where
  question : String
  answer : String
  context : String
deriving DecidableEq, Repr

/-- The mutable state of a `DataAnalystAgent` instance: the three
content fields set by `load_document`, the history list, and the fixed
model identifier set in `__init__`. -/
structure AgentState where
  data : Option Table
  text_content : Option String
  image_content : Option String
  analysis_history : List AnalysisRecord
  model : String
deriving DecidableEq, Repr

/-- The state right after `__init__`: no content loaded, empty history,
fixed model string. -/
def initState : AgentState :=
  { data := none
    text_content := none
    image_content := none
    analysis_history := []
    model := "meta-llama/Llama-4-Maverick-17B-128E-Instruct-FP8" }

/-- Python `str.lower()` restricted to the ASCII case mapping, applied by
`load_document` to the extension returned by `os.path.splitext`. -/
def strLower (s : String) : String :=
  String.mk (s.data.map Char.toLower)

/-- Python string slicing `s[:n]`: the first `n` characters. -/
def pyTake (s : String) (n : Nat) : String :=
  String.mk (s.data.take n)

/-- The `{'status': ..., 'message': ...}` dict returned by
`load_document`. -/
structure LoadResult where
  status : String
  message : String
deriving DecidableEq, Repr

/-- Rendering of `self.data.shape` inside a Python f-string: the tuple
`(row_count, column_count)`. -/
def shapeStr (df : Table) : String :=
  "(" ++ toString df.rows.length ++ ", " ++ toString df.cols.length ++ ")"

/-- The base64 alphabet character for a 6-bit value, used to model
`base64.b64encode`. -/
def b64Char (n : Nat) : Char :=
  ("ABCDEFGHIJKLMNOPQRSTUVWXYZabcdefghijklmnopqrstuvwxyz0123456789+/".data).getD n '='

/-- Standard base64 encoding of a byte list, modelling
`base64.b64encode(image_file.read()).decode('utf-8')`. -/
def base64Encode : List Nat → List Char
  | b1 :: b2 :: b3 :: rest =>
      b64Char (b1 / 4) :: b64Char ((b1 % 4) * 16 + b2 / 16) ::
      b64Char ((b2 % 16) * 4 + b3 / 64) :: b64Char (b3 % 64) :: base64Encode rest
  | [b1, b2] => [b64Char (b1 / 4), b64Char ((b1 % 4) * 16 + b2 / 16), b64Char ((b2 % 16) * 4), '=']
  | [b1] => [b64Char (b1 / 4), b64Char ((b1 % 4) * 16), '=', '=']
  | [] => []

/-- `DataAnalystAgent.load_document` (src/agent.py lines 29-54).

The file-format parsers are external calls; each possible parser outcome
is passed as an oracle:
`tabRes` for `pd.read_csv`/`pd.read_excel`, `txtRes` for reading a text
file, `docxRes` for the list of paragraph texts of `Document(path)`,
`pdfRes` for the per-page `extract_text()` results of `PdfReader(path)`
(with `""` standing for a page with no extractable text, which Python
treats as falsy), and `imgRes` for the raw bytes of an image file.
An `Except.error` oracle models the parser raising, which the code
catches and converts to an error dict. Returns the successor state and
the status dict. -/
def load_document (st : AgentState) (ext0 : String)
    (tabRes : Except String Table)
    (txtRes : Except String String)
    (docxRes : Except String (List String))
    (pdfRes : Except String (List String))
    (imgRes : Except String (List Nat)) : AgentState × LoadResult :=
  let ext := strLower ext0
  if ext = ".csv" ∨ ext = ".xlsx" then
    match tabRes with
    | .ok t =>
        ({ st with data := some t },
         { status := "success", message := "Data loaded successfully. Shape: " ++ shapeStr t })
    | .error e => (st, { status := "error", message := "Error loading file: " ++ e })
  else if ext = ".txt" then
    match txtRes with
    | .ok s =>
        ({ st with text_content := some s },
         { status := "success", message := "Text file loaded successfully." })
    | .error e => (st, { status := "error", message := "Error loading file: " ++ e })
  else if ext = ".docx" then
    match docxRes with
    | .ok paras =>
        ({ st with text_content := some (String.intercalate "\n" paras) },
         { status := "success", message := "DOCX file loaded successfully." })
    | .error e => (st, { status := "error", message := "Error loading file: " ++ e })
  else if ext = ".pdf" then
    match pdfRes with
    | .ok pages =>
        ({ st with text_content := some (String.intercalate "\n" (pages.filter (fun p => p ≠ ""))) },
         { status := "success", message := "PDF file loaded successfully." })
    | .error e => (st, { status := "error", message := "Error loading file: " ++ e })
  else if ext = ".png" ∨ ext = ".jpg" ∨ ext = ".jpeg" then
    match imgRes with
    | .ok bytes =>
        ({ st with image_content := some (String.mk (base64Encode bytes)) },
         { status := "success", message := "Image file loaded successfully." })
    | .error e => (st, { status := "error", message := "Error loading file: " ++ e })
  else
    (st, { status := "error", message := "Unsupported file type." })

/-- Per-column missing-value counts, modelling
`self.data.isnull().sum().to_dict()` in source column order. -/
def missingCounts (df : Table) : List (String × Nat) :=
  df.cols.enum.map (fun ic =>
    (ic.2.1, (df.rows.filter (fun r => r.getD ic.1 Cell.na = Cell.na)).length))

/-- The structured summary dict returned by `get_data_summary`, one
variant per branch of the method (including the no-data error dict). -/
inductive Summary where
  | structuredS (shape : Nat × Nat) (missing_values : List (String × Nat))
      (dtypes : List (String × String)) (sample_data : List (List Cell))
  | textS (length : Nat) (word_count : Nat) (preview : String)
  | imageS (message : String)
  | errorS (msg : String)
deriving DecidableEq, Repr

/-- Helper for `pySplit`: walks the characters, accumulating the current
token in reverse; whitespace ends a token, empty tokens are dropped. -/
def pySplitAux : List Char → List Char → List String
  | [], acc => if acc.isEmpty then [] else [String.mk acc.reverse]
  | c :: cs, acc =>
      if c.isWhitespace then
        (if acc.isEmpty then pySplitAux cs [] else String.mk acc.reverse :: pySplitAux cs [])
      else pySplitAux cs (c :: acc)

/-- Python `str.split()` with no separator: whitespace-delimited tokens,
empty tokens discarded. -/
def pySplit (s : String) : List String :=
  pySplitAux s.data []

/-- `DataAnalystAgent.get_data_summary` (src/agent.py lines 56-86):
branches on `self.data is not None`, then `self.text_content is not
None`, then `self.image_content is not None`. -/
def get_data_summary (st : AgentState) : Summary :=
  match st.data with
  | some df =>
      .structuredS (df.rows.length, df.cols.length) (missingCounts df)
        (df.cols.map (fun c => (c.1, c.2.tag))) (df.rows.take 5)
  | none =>
      match st.text_content with
      | some t => .textS t.length (pySplit t).length (pyTake t 500)
      | none =>
          match st.image_content with
          | some _ =>
              .imageS "Image summary is not available. Ask questions about the image content."
          | none => .errorS "No data loaded."

/-- The chart object produced by the plotting toolkit, modelled as the
specification of the `px.histogram` / `px.scatter` call that created it
(the toolkit itself is an external collaborator). -/
inductive Figure where
  | histogram (x : String) (title : String)
  | scatter (x : String) (y : String) (title : String)
deriving DecidableEq, Repr

/-- One element of the list returned by `create_visualizations`: either a
visualization dict `{'title', 'figure', 'insights'}` or an error dict. -/
inductive VizItem where
  | viz (title : String) (figure : Figure) (insights : String)
  | error (msg : String)
deriving DecidableEq, Repr

/-- The numeric-column names of a table in source column order, modelling
`self.data.select_dtypes(include=np.number).columns.tolist()`. -/
def numericCols (df : Table) : List String :=
  (df.cols.filter (fun c => c.2.isNumeric)).map (fun c => c.1)

/-- `DataAnalystAgent.create_visualizations` (src/agent.py lines 88-118). -/
def create_visualizations (st : AgentState) : List VizItem :=
  match st.data with
  | none => [.error "No data loaded for visualization."]
  | some df =>
      let numeric_cols := numericCols df
      if numeric_cols = [] then
        [.error "No numeric columns to visualize."]
      else
        let vs : List VizItem :=
          if numeric_cols.length > 0 then
            let col := numeric_cols.getD 0 ""
            [.viz ("Histogram of " ++ col)
              (.histogram col ("Histogram of " ++ col))
              ("This histogram shows the distribution of " ++ col ++ ".")]
          else []
        if numeric_cols.length > 1 then
          let x_col := numeric_cols.getD 0 ""
          let y_col := numeric_cols.getD 1 ""
          vs ++ [.viz ("Scatter Plot: " ++ x_col ++ " vs " ++ y_col)
            (.scatter x_col y_col ("Scatter Plot: " ++ x_col ++ " vs " ++ y_col))
            ("This scatter plot shows the relationship between " ++ x_col ++ " and " ++ y_col ++ ".")]
        else vs

/-- A stand-in for the external `pandas.DataFrame.head().to_string()`
rendering used in the context string: column names and the first five
rows, whitespace-separated. No claim depends on its exact form, only on
where it appears in the assembled context. -/
def dfHeadToString (df : Table) : String :=
  String.intercalate " " (df.cols.map (fun c => c.1)) ++
  String.join ((df.rows.take 5).map (fun r =>
    "\n" ++ String.intercalate " " (r.map (fun c =>
      match c with
      | .na => "NaN"
      | .val s => s))))

/-- The tabular segment of the context string built in `answer_question`:
present when `self.data is not None`. -/
def tabSegment (st : AgentState) : String :=
  match st.data with
  | some df => "Dataset Info: " ++ dfHeadToString df ++ "\nShape: " ++ shapeStr df ++ "\n"
  | none => ""

/-- The text segment of the context string built in `answer_question`:
guarded by the truthiness test `if self.text_content:`, so an empty
string contributes nothing. -/
def textSegment (st : AgentState) : String :=
  match st.text_content with
  | some t => if t ≠ "" then "Text Content: " ++ pyTake t 1000 ++ "...\n" else ""
  | none => ""

/-- The image segment of the context string built in `answer_question`:
guarded by the truthiness test `if self.image_content:`. -/
def imageSegment (st : AgentState) : String :=
  match st.image_content with
  | some i =>
      if i ≠ "" then "Image content is available but cannot be displayed in text form.\n" else ""
  | none => ""

/-- The context string assembled at the top of `answer_question`
(src/agent.py lines 121-127): tabular, text, then image segment. -/
def buildContext (st : AgentState) : String :=
  tabSegment st ++ textSegment st ++ imageSegment st

/-- The message sequence built in `answer_question` (src/agent.py lines
129-134): each history turn copied through by its `role` and `content`
fields, then one final user turn embedding the context and question. -/
def buildMessages (st : AgentState) (question : String) (chat_history : List ChatTurn) :
    List ChatTurn :=
  (chat_history.map (fun m => { role := m.role, content := m.content })) ++
  [{ role := "user", content := "Context: " ++ buildContext st ++ "\nQuestion: " ++ question }]

/-- The completion-service response shape the code probes with
`getattr(..., None)`: each level may be structurally absent. -/
structure RespMessage where
  content : Option String
deriving DecidableEq, Repr

/-- One element of `response.choices`. -/
structure RespChoice where
  message : Option RespMessage
deriving DecidableEq, Repr

/-- A completion-service response. -/
structure Response where
  choices : Option (List RespChoice)
deriving DecidableEq, Repr

/-- The request sent by `answer_question`: fixed model identifier, the
built messages, and `max_tokens=1000`. -/
structure Request where
  model : String
  messages : List ChatTurn
  max_tokens : Nat
deriving DecidableEq, Repr

/-- The answer-extraction logic of `answer_question` (src/agent.py lines
143-153): take the first choice's message content when every level is
present and truthy; otherwise fall back to the sentinel string. -/
def extractAnswer (r : Response) : String :=
  let llm0 : String :=
    match r.choices with
    | some (c :: _) =>
        (match c.message with
         | some m =>
             (match m.content with
              | some s => s
              | none => "")
         | none => "")
    | _ => ""
  if llm0 = "" then "Error: Could not parse LLM response." else llm0

/-- The value returned by `answer_question`: either the answer dict
`{'llm_answer', 'quantitative_answer'}` or the error dict produced when
the service call raises. -/
inductive AnswerResult where
  | ok (llm_answer : String) (quantitative_details : String)
  | error (msg : String)
deriving DecidableEq, Repr

/-- `DataAnalystAgent.answer_question` (src/agent.py lines 120-169).
The external completion service is the oracle `svc`, mapping the request
actually sent to either a response or a raised transport error. Returns
the successor state and the result dict. -/
def answer_question (st : AgentState) (question : String) (chat_history : List ChatTurn)
    (svc : Request → Except String Response) : AgentState × AnswerResult :=
  let context := buildContext st
  let messages := buildMessages st question chat_history
  match svc { model := st.model, messages := messages, max_tokens := 1000 } with
  | .error e => (st, .error ("Error answering question: " ++ e))
  | .ok r =>
      let llm_answer := extractAnswer r
      ({ st with analysis_history :=
          st.analysis_history ++ [{ question := question, answer := llm_answer, context := context }] },
       .ok llm_answer "No specific quantitative data extracted.")

end Agent

open Agent

/-- Claim C6: the message sequence built for the completion service is
every history turn in order, each passed through unchanged, followed by
exactly one final turn with role "user" and content
`"Context: " ++ assembled context ++ "\nQuestion: " ++ question`; for the
empty history the sequence has length exactly 1. -/
theorem c6_message_sequence (st : AgentState) (q : String) (h : List ChatTurn) :
    buildMessages st q h =
      h ++ [{ role := "user", content := "Context: " ++ buildContext st ++ "\nQuestion: " ++ q }]
    ∧ (buildMessages st q []).length = 1 := by
  constructor
  · show List.map (fun m => m) h ++ _ = _
    rw [List.map_id']
  · rfl

/-- Claim C7: for a loaded Text document, `get_data_summary` returns the
text summary with the string's length, its whitespace-token count and the
first 500 characters as preview. -/
theorem c7_text_summary (st : AgentState) (s : String)
    (h1 : st.data = none) (h2 : st.text_content = some s) :
    get_data_summary st = .textS s.length (pySplit s).length (pyTake s 500) := by
  simp [get_data_summary, h1, h2]

/-- Claim C7 witness: on the text `"Hello world"` the summary is
`char_length 11, word_count 2, preview "Hello world"`. -/
theorem c7_text_summary_witness :
    get_data_summary
      { data := none, text_content := some "Hello world", image_content := none,
        analysis_history := [], model := "" } =
      .textS 11 2 "Hello world" :=
  (c7_text_summary _ "Hello world" rfl rfl).trans (by decide)

/-- Claim C9: context assembly is a total function; its segments appear
in the fixed order Tabular, Text, Image; an absent slot contributes the
empty segment; and with no document loaded the context is exactly `""`. -/
theorem c9_context_assembly (st : AgentState) :
    buildContext st = tabSegment st ++ textSegment st ++ imageSegment st
    ∧ (st.data = none → tabSegment st = "")
    ∧ (st.text_content = none → textSegment st = "")
    ∧ (st.image_content = none → imageSegment st = "")
    ∧ (st.data = none ∧ st.text_content = none ∧ st.image_content = none →
        buildContext st = "") := by
  refine ⟨rfl, ?_, ?_, ?_, ?_⟩
  · intro h
    simp [tabSegment, h]
  · intro h
    simp [textSegment, h]
  · intro h
    simp [imageSegment, h]
  · rintro ⟨h1, h2, h3⟩
    simp [buildContext, tabSegment, textSegment, imageSegment, h1, h2, h3]

/-- Claim C9 witness: on the freshly initialized agent the assembled
context is the empty string. -/
theorem c9_context_assembly_witness : buildContext initState = "" :=
  (c9_context_assembly initState).2.2.2.2 ⟨rfl, rfl, rfl⟩

/-- Claim C10: an empty-string text payload counts as loaded for the
summarizer (summary `char_length 0, word_count 0, preview ""`), yet
contributes no Text segment to the assembled context, because the context
builder tests the payload for truthiness rather than presence. -/
theorem c10_empty_text_divergence (st : AgentState)
    (h1 : st.data = none) (h2 : st.text_content = some "") :
    get_data_summary st = .textS 0 0 "" ∧ textSegment st = "" := by
  constructor
  · simp [get_data_summary, h1, h2]
    decide
  · simp [textSegment, h2]

/-- Claim C5: on tabular data, zero numeric columns yields the single
`No numeric columns` error item (never an empty list); one numeric column
yields exactly the histogram over it; two or more numeric columns yield
exactly the histogram over the first and the scatter pairing the first
and second, in source column order, and never any further item. -/
theorem c5_visualization_plan (st : AgentState) (df : Table) (hd : st.data = some df) :
    (numericCols df = [] →
      create_visualizations st = [.error "No numeric columns to visualize."])
    ∧ (∀ c, numericCols df = [c] →
        create_visualizations st =
          [.viz ("Histogram of " ++ c) (.histogram c ("Histogram of " ++ c))
            ("This histogram shows the distribution of " ++ c ++ ".")])
    ∧ (∀ c1 c2 rest, numericCols df = c1 :: c2 :: rest →
        create_visualizations st =
          [.viz ("Histogram of " ++ c1) (.histogram c1 ("Histogram of " ++ c1))
            ("This histogram shows the distribution of " ++ c1 ++ "."),
           .viz ("Scatter Plot: " ++ c1 ++ " vs " ++ c2)
            (.scatter c1 c2 ("Scatter Plot: " ++ c1 ++ " vs " ++ c2))
            ("This scatter plot shows the relationship between " ++ c1 ++ " and " ++ c2 ++ ".")]) := by
  refine ⟨?_, ?_, ?_⟩
  · intro h
    simp [create_visualizations, hd, h]
  · intro c h
    simp [create_visualizations, hd, h]
  · intro c1 c2 rest h
    simp [create_visualizations, hd, h]

/-- The tabular dataset of the spec's concrete scenario 1: columns
`date` (string), `amount` (float), `qty` (int). -/
def scenarioTable : Table :=
  { cols := [("date", .objectT), ("amount", .floatT), ("qty", .intT)], rows := [] }

/-- Claim C5 witness: on the scenario dataset the planner returns exactly
the histogram over `amount` and the scatter over `(amount, qty)`. -/
theorem c5_visualization_plan_witness :
    create_visualizations
      { data := some scenarioTable, text_content := none, image_content := none,
        analysis_history := [], model := "" } =
      [.viz "Histogram of amount" (.histogram "amount" "Histogram of amount")
        "This histogram shows the distribution of amount.",
       .viz "Scatter Plot: amount vs qty" (.scatter "amount" "qty" "Scatter Plot: amount vs qty")
        "This scatter plot shows the relationship between amount and qty."] :=
  ((c5_visualization_plan _ scenarioTable rfl).2.2 "amount" "qty" [] (by decide)).trans (by decide)

/-- Claim C2 counterexample: on a response with an empty choice list the
pipeline succeeds, but the sentinel answer it substitutes is the literal
`"Error: Could not parse LLM response."`, not `"Could not parse response"`
as claimed. -/
theorem c2_sentinel_counterexample :
    (answer_question initState "q" [] (fun _ => .ok { choices := some [] })).2 =
      .ok "Error: Could not parse LLM response." "No specific quantitative data extracted."
    ∧ "Error: Could not parse LLM response." ≠ "Could not parse response" := by
  constructor
  · rfl
  · decide

/-- Whether a completion-service response is structurally missing its
answer content: no `choices`, an empty choice list, no `message` on the
first choice, or a missing/empty `content` string. -/
def missingAnswerContent (r : Response) : Bool :=
  match r.choices with
  | none => true
  | some [] => true
  | some (c :: _) =>
      match c.message with
      | none => true
      | some m =>
          match m.content with
          | none => true
          | some s => s == ""

/-- Claim C2 (amended): for every completion-service response that is
structurally missing the answer content, `answer_question` succeeds and
returns the fixed sentinel string
`"Error: Could not parse LLM response."` as the answer. -/
theorem c2_sentinel_amended (st : AgentState) (q : String) (h : List ChatTurn)
    (svc : Request → Except String Response) (r : Response)
    (hr : svc { model := st.model, messages := buildMessages st q h, max_tokens := 1000 } = .ok r)
    (hm : missingAnswerContent r = true) :
    (answer_question st q h svc).2 =
      .ok "Error: Could not parse LLM response." "No specific quantitative data extracted." := by
  have he : extractAnswer r = "Error: Could not parse LLM response." := by
    rcases r with ⟨_ | ⟨_ | ⟨c, cs⟩⟩⟩
    · rfl
    · rfl
    · rcases c with ⟨_ | ⟨⟨_ | s⟩⟩⟩
      · rfl
      · rfl
      · simp only [missingAnswerContent, beq_iff_eq] at hm
        subst hm
        rfl
  simp [answer_question, hr, he]

/-- Claim C2 witness: a response with `choices` absent altogether. -/
theorem c2_sentinel_amended_witness :
    (answer_question initState "q" [] (fun _ => .ok { choices := none })).2 =
      .ok "Error: Could not parse LLM response." "No specific quantitative data extracted." :=
  c2_sentinel_amended initState "q" [] _ { choices := none } rfl rfl

/-- Claim C10 witness: the concrete state holding the empty text. -/
theorem c10_empty_text_divergence_witness :
    get_data_summary
      { data := none, text_content := some "", image_content := none,
        analysis_history := [], model := "" } = .textS 0 0 ""
    ∧ textSegment
      { data := none, text_content := some "", image_content := none,
        analysis_history := [], model := "" } = "" :=
  c10_empty_text_divergence _ rfl rfl

/-- Claim C3: when the completion-service call raises a transport error,
`answer_question` returns the error dict and leaves the whole state (in
particular the history) unchanged; when the service returns any response,
it returns the extracted answer and appends exactly one
`{question, answer, context}` record to the history. -/
theorem c3_history_discipline (st : AgentState) (q : String) (h : List ChatTurn)
    (svc : Request → Except String Response) :
    (∀ e, svc { model := st.model, messages := buildMessages st q h, max_tokens := 1000 } = .error e →
        (answer_question st q h svc).1 = st ∧
        (answer_question st q h svc).2 = .error ("Error answering question: " ++ e))
    ∧ (∀ r, svc { model := st.model, messages := buildMessages st q h, max_tokens := 1000 } = .ok r →
        (answer_question st q h svc).2 =
          .ok (extractAnswer r) "No specific quantitative data extracted." ∧
        (answer_question st q h svc).1.analysis_history =
          st.analysis_history ++
            [{ question := q, answer := extractAnswer r, context := buildContext st }]) := by
  constructor
  · intro e hr
    constructor <;> simp [answer_question, hr]
  · intro r hr
    constructor <;> simp [answer_question, hr]

/-- Claim C3 witness: a failing service leaves the fresh agent unchanged;
a reachable service appends exactly one record. -/
theorem c3_history_discipline_witness :
    ((answer_question initState "q" [] (fun _ => .error "boom")).1 = initState
      ∧ (answer_question initState "q" [] (fun _ => .error "boom")).2 =
          .error ("Error answering question: " ++ "boom"))
    ∧ (answer_question initState "q" [] (fun _ => .ok { choices := none })).1.analysis_history =
        initState.analysis_history ++
          [{ question := "q", answer := extractAnswer { choices := none },
             context := buildContext initState }] :=
  ⟨(c3_history_discipline initState "q" [] (fun _ => .error "boom")).1 "boom" rfl,
   ((c3_history_discipline initState "q" [] (fun _ => .ok { choices := none })).2
      { choices := none } rfl).2⟩

/-- Claim C4: for every supported extension (after lowercasing), a
parser-level failure makes `load_document` return the error dict carrying
the underlying message, and leaves the state — in particular every
content slot — unchanged. -/
theorem c4_parse_failure (st : AgentState) (ext : String) (e : String)
    (hext : strLower ext ∈ [".csv", ".xlsx", ".txt", ".docx", ".pdf", ".png", ".jpg", ".jpeg"]) :
    (load_document st ext (.error e) (.error e) (.error e) (.error e) (.error e)).1 = st
    ∧ (load_document st ext (.error e) (.error e) (.error e) (.error e) (.error e)).2 =
        { status := "error", message := "Error loading file: " ++ e } := by
  simp only [List.mem_cons, List.not_mem_nil, or_false] at hext
  rcases hext with h | h | h | h | h | h | h | h <;> simp [load_document, h]

/-- Claim C4 witness: a failing CSV parse on an upper-case `.CSV` path
leaves the fresh agent unchanged and reports the message. -/
theorem c4_parse_failure_witness :
    (load_document initState ".CSV"
        (.error "bad file") (.error "bad file") (.error "bad file")
        (.error "bad file") (.error "bad file")).1 = initState
    ∧ (load_document initState ".CSV"
        (.error "bad file") (.error "bad file") (.error "bad file")
        (.error "bad file") (.error "bad file")).2 =
        { status := "error", message := "Error loading file: " ++ "bad file" } :=
  c4_parse_failure initState ".CSV" "bad file" (by decide)

/-- Claim C8: extension dispatch is case-insensitive over the supported
set — `.csv`/`.xlsx` parse into the tabular slot, `.txt` reads text,
`.docx` joins paragraph texts with newlines, `.pdf` joins the non-empty
per-page extracts with newlines, `.png`/`.jpg`/`.jpeg` store the
base64-encoded bytes — and every other extension fails with the
unsupported-file-type error, leaving the state unchanged. -/
theorem c8_extension_dispatch (st : AgentState) (ext : String)
    (tabRes : Except String Table) (txtRes : Except String String)
    (docxRes pdfRes : Except String (List String)) (imgRes : Except String (List Nat)) :
    ((strLower ext = ".csv" ∨ strLower ext = ".xlsx") → ∀ t, tabRes = .ok t →
        (load_document st ext tabRes txtRes docxRes pdfRes imgRes).1 = { st with data := some t })
    ∧ (strLower ext = ".txt" → ∀ s, txtRes = .ok s →
        (load_document st ext tabRes txtRes docxRes pdfRes imgRes).1 =
          { st with text_content := some s })
    ∧ (strLower ext = ".docx" → ∀ ps, docxRes = .ok ps →
        (load_document st ext tabRes txtRes docxRes pdfRes imgRes).1 =
          { st with text_content := some (String.intercalate "\n" ps) })
    ∧ (strLower ext = ".pdf" → ∀ ps, pdfRes = .ok ps →
        (load_document st ext tabRes txtRes docxRes pdfRes imgRes).1 =
          { st with text_content := some (String.intercalate "\n" (ps.filter (fun p => p ≠ ""))) })
    ∧ ((strLower ext = ".png" ∨ strLower ext = ".jpg" ∨ strLower ext = ".jpeg") →
        ∀ bs, imgRes = .ok bs →
        (load_document st ext tabRes txtRes docxRes pdfRes imgRes).1 =
          { st with image_content := some (String.mk (base64Encode bs)) })
    ∧ (strLower ext ∉ [".csv", ".xlsx", ".txt", ".docx", ".pdf", ".png", ".jpg", ".jpeg"] →
        (load_document st ext tabRes txtRes docxRes pdfRes imgRes).1 = st ∧
        (load_document st ext tabRes txtRes docxRes pdfRes imgRes).2 =
          { status := "error", message := "Unsupported file type." }) := by
  refine ⟨?_, ?_, ?_, ?_, ?_, ?_⟩
  · rintro (h | h) t ht <;> simp [load_document, h, ht]
  · intro h s hs
    simp [load_document, h, hs]
  · intro h ps hps
    simp [load_document, h, hps]
  · intro h ps hps
    simp [load_document, h, hps]
  · rintro (h | h | h) bs hbs <;> simp [load_document, h, hbs]
  · intro h
    simp only [List.mem_cons, List.not_mem_nil, or_false, not_or] at h
    obtain ⟨h1, h2, h3, h4, h5, h6, h7, h8⟩ := h
    constructor <;> simp [load_document, h1, h2, h3, h4, h5, h6, h7, h8]

/-- Claim C8 witness: a mixed-case `.CsV` path loads into the tabular
slot, and an unknown `.foo` extension is rejected with the state kept. -/
theorem c8_extension_dispatch_witness :
    (load_document initState ".CsV" (.ok scenarioTable)
        (.error "") (.error "") (.error "") (.error "")).1 =
      { initState with data := some scenarioTable }
    ∧ (load_document initState ".foo" (.ok scenarioTable)
        (.error "") (.error "") (.error "") (.error "")).1 = initState :=
  ⟨(c8_extension_dispatch initState ".CsV" (.ok scenarioTable)
      (.error "") (.error "") (.error "") (.error "")).1 (Or.inl rfl) scenarioTable rfl,
   ((c8_extension_dispatch initState ".foo" (.ok scenarioTable)
      (.error "") (.error "") (.error "") (.error "")).2.2.2.2.2 (by decide)).1⟩

/-- A one-column, one-row tabular document, used as document A below. -/
def tableA : Table :=
  { cols := [("a", .intT)], rows := [[.val "1"]] }

/-- The state reached from a fresh agent by successfully loading the
tabular document `tableA` and then successfully loading the text
document `"B text"`. -/
def stateAfterAThenB : AgentState :=
  (load_document
    (load_document initState ".csv" (.ok tableA)
      (.error "") (.error "") (.error "") (.error "")).1
    ".txt" (.error "") (.ok "B text") (.error "") (.error "") (.error "")).1

/-- Claim C1 counterexample: after successfully loading tabular document
A and then text document B, the state still holds A in its tabular slot
alongside B, and the summary reflects A (the tabular branch wins), not B
— so the store is not a single slot across variants. -/
theorem c1_single_slot_counterexample :
    stateAfterAThenB.data = some tableA
    ∧ stateAfterAThenB.text_content = some "B text"
    ∧ get_data_summary stateAfterAThenB =
        .structuredS (1, 1) [("a", 0)] [("a", "int64")] [[.val "1"]] := by
  refine ⟨rfl, rfl, ?_⟩
  decide

/-- Claim C1 (amended): the Content Store is three independent
per-variant slots. A successful load writes only the slot of the loaded
document's variant and leaves the other two slots and the history
unchanged; consequently, loading B after A leaves the state holding only
B exactly when A and B are of the same variant (shown in the last
conjunct for the tabular variant). -/
theorem c1_per_variant_slots (st : AgentState) (t : Table) (s : String) (bs : List Nat)
    (tabRes : Except String Table) (txtRes : Except String String)
    (docxRes pdfRes : Except String (List String)) (imgRes : Except String (List Nat)) :
    (load_document st ".csv" (.ok t) txtRes docxRes pdfRes imgRes).1 = { st with data := some t }
    ∧ (load_document st ".xlsx" (.ok t) txtRes docxRes pdfRes imgRes).1 = { st with data := some t }
    ∧ (load_document st ".txt" tabRes (.ok s) docxRes pdfRes imgRes).1 =
        { st with text_content := some s }
    ∧ (load_document st ".png" tabRes txtRes docxRes pdfRes (.ok bs)).1 =
        { st with image_content := some (String.mk (base64Encode bs)) }
    ∧ (∀ t2 : Table,
        (load_document
          (load_document st ".csv" (.ok t) txtRes docxRes pdfRes imgRes).1
          ".csv" (.ok t2) txtRes docxRes pdfRes imgRes).1 =
        { st with data := some t2 }) :=
  ⟨rfl, rfl, rfl, rfl, fun _ => rfl⟩
